import Mathlib

/-!
Shallow embedding of pkg/connector/handlebsky.go (mautrix-bluesky connector).

Conventions of the embedding:
* Go pointer fields become Option; a nil pointer is none.
* Go `any` values are modelled by closed inductive types covering the
  dynamic types the call sites can produce, plus a constructor for every
  other dynamic type, and one for the untyped nil interface where it can
  occur.
* A Go runtime panic (nil-pointer dereference, index out of range) is
  modelled by an Option result being none. Where every return statement of
  a Go function carries a nil error, the embedding drops the error slot.
* The external collaborators b.makeEventSender and
  ParseDatetimeTime from the atproto datetime package are abstracted as
  function parameters, so every theorem quantifies over their behaviour.
* Logging is effect-free except that a log call evaluates its argument
  expressions; argument evaluation in Go happens before the call, so a
  dereference inside a log argument can still panic and is modelled.
-/

namespace Bluesky

/-- Matrix event type constant event.EventMessage. -/
def eventMessage : String := "m.room.message"

/-- Matrix message type constant event.MsgText. -/
def msgText : String := "m.text"

/-- Matrix message type constant event.MsgNotice. -/
def msgNotice : String := "m.notice"

/-- Matrix formatted-body format constant event.FormatHTML. -/
def formatHTML : String := "org.matrix.custom.html"

/-- Remote event type constant bridgev2.RemoteEventMessage. -/
def remoteEventMessage : String := "message"

/-- event.MessageEventContent, restricted to the fields this file sets. -/
structure MessageEventContent where
  msgType : String
  body : String
  formattedBody : Option String := none
  format : Option String := none
  deriving Repr, DecidableEq

/-- bridgev2.ConvertedMessagePart. -/
structure ConvertedMessagePart where
  type : String
  content : MessageEventContent
  deriving Repr, DecidableEq

/-- bridgev2.ConvertedMessage, restricted to the Parts field. -/
structure ConvertedMessage where
  parts : List ConvertedMessagePart
  deriving Repr, DecidableEq

/-- chat.ConvoDefs_MessageViewSender: only the Did field is read. -/
structure ChatSender where
  did : String
  deriving Repr, DecidableEq

/-- bridgev2.EventSender: only the Sender field is read (as a string). -/
structure EventSender where
  sender : String
  deriving Repr, DecidableEq

/-- time.Time, reduced to its millisecond epoch value, which is all the
code observes (via UnixMilli). -/
structure Time where
  millis : Int
  deriving Repr, DecidableEq

/-- time.Time.UnixMilli. -/
def Time.unixMilli (t : Time) : Int := t.millis

/-- bsky.EmbedImages_Image: the Image field is a *util.LexBlob pointer;
only its presence matters (reading Ref on a nil blob panics). -/
structure EmbedImagesImage where
  image : Option Unit := none
  deriving Repr, DecidableEq

/-- bsky.EmbedImages: the Images slice. -/
structure EmbedImages where
  images : List EmbedImagesImage := []
  deriving Repr, DecidableEq

/-- bsky.FeedPost_Embed union: pointer per variant; only EmbedImages is
ever dereferenced by this file. -/
structure FeedPostEmbed where
  embedImages : Option EmbedImages := none
  embedExternal : Option Unit := none
  embedRecord : Option Unit := none
  embedRecordWithMedia : Option Unit := none
  embedVideo : Option Unit := none
  deriving Repr, DecidableEq

/-- bsky.FeedPost, restricted to the fields this file reads. -/
structure FeedPost where
  text : String
  embed : Option FeedPostEmbed := none
  deriving Repr, DecidableEq

/-- The dynamic value held in util.LexiconTypeDecoder.Val: a feed post,
the untyped nil interface, or a value of any other concrete type
(identified by its type name). -/
inductive RecordValue where
  | nilVal : RecordValue
  | feedPost (p : FeedPost) : RecordValue
  | otherVal (typeName : String) : RecordValue
  deriving Repr, DecidableEq

/-- bsky.EmbedRecord_ViewRecord: Value is a *util.LexiconTypeDecoder
pointer (none = nil pointer, whose Val access panics); its Val is the
dynamic RecordValue. -/
structure EmbedRecord_ViewRecord where
  value : Option RecordValue := none
  deriving Repr, DecidableEq

/-- bsky.EmbedRecord_View_Record union: one pointer per record variant.
Only EmbedRecord_ViewRecord is ever dereferenced by this file. -/
structure EmbedRecord_View_Record where
  embedRecord_ViewRecord : Option EmbedRecord_ViewRecord := none
  embedRecord_ViewNotFound : Option Unit := none
  embedRecord_ViewBlocked : Option Unit := none
  embedRecord_ViewDetached : Option Unit := none
  feedDefs_GeneratorView : Option Unit := none
  graphDefs_ListView : Option Unit := none
  labelerDefs_LabelerView : Option Unit := none
  graphDefs_StarterPackViewBasic : Option Unit := none
  deriving Repr, DecidableEq

/-- bsky.EmbedRecord_View: the Record field is a
*bsky.EmbedRecord_View_Record pointer. -/
structure EmbedRecord_View where
  record : Option EmbedRecord_View_Record := none
  deriving Repr, DecidableEq

/-- chat.ConvoDefs_MessageView_Embed union: a single pointer variant. -/
structure MessageViewEmbed where
  embedRecord_View : Option EmbedRecord_View := none
  deriving Repr, DecidableEq

/-- chat.ConvoDefs_MessageView, restricted to the fields this file
reads. -/
structure MessageView where
  rev : String := ""
  id : String
  sender : ChatSender
  sentAt : String
  text : String
  embed : Option MessageViewEmbed := none
  deriving Repr, DecidableEq

/-- chat.ConvoDefs_DeletedMessageView. -/
structure DeletedMessageView where
  rev : String := ""
  id : String
  sender : ChatSender
  sentAt : String
  deriving Repr, DecidableEq

/-- The dynamic `data any` payload reaching convertMessage: a
*chat.ConvoDefs_MessageView, a *chat.ConvoDefs_DeletedMessageView, or a
value of any other shape. -/
inductive Payload where
  | active (v : MessageView) : Payload
  | deleted (v : DeletedMessageView) : Payload
  | other (typeName : String) : Payload
  deriving Repr, DecidableEq

/-- The dynamic `record any` argument of blueskyEmbedToMatrix: the untyped
nil interface, a typed *bsky.EmbedRecord_View_Record pointer (possibly a
nil pointer — which, stored in an interface, does not compare equal to
nil), or a value of any other dynamic type. -/
inductive RecordArg where
  | nilInterface : RecordArg
  | viewRecordPtr (p : Option EmbedRecord_View_Record) : RecordArg
  | otherType (typeName : String) : RecordArg
  deriving Repr, DecidableEq

/-- recordValueDecoder (handlebsky.go lines 176-187). `none` models a Go
runtime panic. Line 177 evaluates reflect.TypeOf(recordValue).String(),
which panics when recordValue is the nil interface. In the *bsky.FeedPost
case, the debug log on line 180 evaluates
typedRecordValue.Embed.EmbedImages.Images[0].Image.Ref.String() as an
argument — argument evaluation precedes the call, independent of the log
level — so the chain panics unless Embed, EmbedImages, a first image and
its Image blob are all present. Every non-panicking path returns a
string. -/
def recordValueDecoder : RecordValue → Option String
  | .nilVal => none
  | .feedPost p =>
    match p.embed with
    | none => none
    | some e =>
      match e.embedImages with
      | none => none
      | some imgs =>
        match imgs.images with
        | [] => none
        | img :: _ =>
          match img.image with
          | none => none
          | some _ => some p.text
  | .otherVal _ => some "not parsed"

/-- The hard-coded HTML formatted body set by blueskyEmbedToMatrix
(handlebsky.go line 161), quoting one specific post. -/
def embedFormattedBody : String := "https://bsky.app/profile/freya.bsky.social/post/3lfb7tow4642l\n<blockquote class=\"discord-embed\" background-color=\"#1185FE\"><p class=\"discord-embed-author\"><img data-mx-emoticon height=\"24\" src=\"https://cdn.bsky.app/img/feed_fullsize/plain/did:plc:5nq3pybl4nnoxfp3ovjy2lh7/bafkreicrukysn6lnd4nrl5nrkamt65hynzglq66obgjfsxyh5ybhnauhem@jpeg\" title=\"Author icon\" alt=\"\">&nbsp;<span><a href=\"https://bsky.app/profile/freya.bsky.social/post/3lfb7tow4642l\">Freya Holmér (@freya.bsky.social)</a></span></p><p class=\"discord-embed-description\"><p>all my kids are on bsky btw!!</p>\n<p>🐈‍⬛ @thor.acegikmo.com<br>\n🥗 @salad.acegikmo.com<br>\n🥪 @toast.acegikmo.com</p></p><table class=\"discord-embed-fields\"><tr><th>Likes</th></tr><tr><td>1037</td></tr></table><p class=\"discord-embed-image\"><img src=\"https://cdn.bsky.app/img/feed_fullsize/plain/did:plc:5nq3pybl4nnoxfp3ovjy2lh7/bafkreicrukysn6lnd4nrl5nrkamt65hynzglq66obgjfsxyh5ybhnauhem@jpeg\" alt=\"\" title=\"Embed image\"></p><p class=\"discord-embed-footer\"><sub><img data-mx-emoticon height=\"20\" src=\"https://cdn.bsky.app/img/feed_fullsize/plain/did:plc:5nq3pybl4nnoxfp3ovjy2lh7/bafkreicrukysn6lnd4nrl5nrkamt65hynzglq66obgjfsxyh5ybhnauhem@jpeg\" title=\"Footer icon\" alt=\"\">&nbsp;<span>Bluesky</span> • <time datetime=\"2025-01-08T22:33:27.859000+00:00\">Wednesday, 8 January 2025 22:33 UTC</time></sub></p></blockquote>"

/-- blueskyEmbedToMatrix (handlebsky.go lines 150-174). Result layering:
outer none = runtime panic; some (.error e) = returned error;
some (.ok part) = returned part with nil error.
The line 151 check `record == nil` tests the interface value: a nil
*bsky.EmbedRecord_View_Record pointer stored in the interface is not equal
to nil, so it falls through to the type switch, matches the
*bsky.EmbedRecord_View_Record case with a nil typedRecord, and the field
read typedRecord.EmbedRecord_ViewRecord panics. A nil
EmbedRecord_ViewRecord field or a nil Value pointer likewise panics on
line 160, and a panic inside recordValueDecoder propagates. -/
def blueskyEmbedToMatrix : RecordArg → Option (Except String ConvertedMessagePart)
  | .nilInterface => some (.error "record is nil")
  | .viewRecordPtr none => none
  | .viewRecordPtr (some r) =>
    match r.embedRecord_ViewRecord with
    | none => none
    | some vr =>
      match vr.value with
      | none => none
      | some val =>
        match recordValueDecoder val with
        | none => none
        | some bodyText =>
          some (.ok { type := eventMessage,
                      content := { msgType := msgText,
                                   body := bodyText,
                                   formattedBody := some embedFormattedBody,
                                   format := some formatHTML } })
  | .otherType typeName => some (.error ("unhandled record type: " ++ typeName))

/-- convertMessage (handlebsky.go lines 102-148). Every Go return
statement carries a nil error, so the embedding returns the
ConvertedMessage directly; none models a runtime panic: the line 115
expression typedData.Embed.EmbedRecord_View.Record dereferences
EmbedRecord_View without a nil check, and a panic inside
blueskyEmbedToMatrix propagates. The embed part, when resolution returns
one, is appended before the text part; the text part is appended exactly
when the body is non-empty. -/
def convertMessage : Payload → Option ConvertedMessage
  | .active v =>
    let textPart : ConvertedMessagePart :=
      { type := eventMessage, content := { msgType := msgText, body := v.text } }
    let appendText : List ConvertedMessagePart → List ConvertedMessagePart :=
      fun parts => if 0 < v.text.length then parts ++ [textPart] else parts
    match v.embed with
    | none => some { parts := appendText [] }
    | some embed =>
      match embed.embedRecord_View with
      | none => none
      | some erv =>
        match blueskyEmbedToMatrix (.viewRecordPtr erv.record) with
        | none => none
        | some (.ok embedPart) => some { parts := appendText [embedPart] }
        | some (.error _) => some { parts := appendText [] }
  | .deleted _ =>
    some { parts := [{ type := eventMessage,
                       content := { msgType := msgNotice, body := "Deleted message" } }] }
  | .other _ =>
    some { parts := [{ type := eventMessage,
                       content := { msgType := msgNotice, body := "Unsupported message" } }] }

/-- The named results of parseMessageDetails (handlebsky.go line 73),
gathered into one record. -/
structure ParsedDetails where
  evtSender : EventSender
  sentAt : Time
  msgID : String
  msgData : Payload
  deriving Repr, DecidableEq

/-- parseMessageDetails (handlebsky.go lines 71-100). makeEventSender
stands for the sender-resolution collaborator b.makeEventSender and
parseDatetimeTime for the strict datetime parser
ParseDatetimeTime of the atproto datetime package; both are external to
this source file and are quantified over. Errors are their messages, with
the wrapping prefixes of lines 91 and 96. -/
def parseMessageDetails
    (makeEventSender : String → Except String EventSender)
    (parseDatetimeTime : String → Except String Time)
    (msgView : Option MessageView) (deletedMsgView : Option DeletedMessageView) :
    Except String ParsedDetails :=
  let finish : String → String → String → Payload → Except String ParsedDetails :=
    fun senderDID sentAtStr msgID msgData =>
      match makeEventSender senderDID with
      | .error e => .error ("failed to parse sender DID: " ++ e)
      | .ok evtSender =>
        match parseDatetimeTime sentAtStr with
        | .error e => .error ("failed to parse sentAt: " ++ e)
        | .ok sentAt => .ok ⟨evtSender, sentAt, msgID, msgData⟩
  match msgView, deletedMsgView with
  | some mv, _ => finish mv.sender.did mv.sentAt mv.id (.active mv)
  | none, some dv => finish dv.sender.did dv.sentAt dv.id (.deleted dv)
  | none, none => .error "no message view or deleted message view"

/-- Modelled from the spec: makePortalID is defined outside this source
file; per the external-interface section the portal id is the opaque,
stable conversation key, so it is the conversation id itself. -/
def makePortalID (convoId : String) : String := convoId

/-- Modelled from the spec: makePortalKey is defined outside this source
file; the portal key references the conversation only via its opaque
key. -/
def makePortalKey (convoId : String) : String := makePortalID convoId

/-- Modelled from the spec: makeMessageID is defined outside this source
file; per the spec it is a composite, deterministic string built from the
(conversationKey, remoteMessageID) pair. -/
def makeMessageID (portalID : String) (msgID : String) : String :=
  portalID ++ ":" ++ msgID

/-- chat.ConvoDefs_LogCreateMessage_Message union: one pointer per
message-view variant. -/
structure LogCreateMessageMessage where
  convoDefs_MessageView : Option MessageView := none
  convoDefs_DeletedMessageView : Option DeletedMessageView := none
  deriving Repr, DecidableEq

/-- chat.ConvoDefs_LogCreateMessage, restricted to the fields this file
reads; Message is a pointer. -/
structure LogCreateMessage where
  convoId : String
  rev : String := ""
  message : Option LogCreateMessageMessage := none
  deriving Repr, DecidableEq

/-- chat.ConvoGetLog_Output_Logs_Elem union: one pointer per log-entry
kind; only ConvoDefs_LogCreateMessage is ever read by this file. -/
structure LogElem where
  convoDefs_LogBeginConvo : Option Unit := none
  convoDefs_LogLeaveConvo : Option Unit := none
  convoDefs_LogCreateMessage : Option LogCreateMessage := none
  convoDefs_LogDeleteMessage : Option Unit := none
  deriving Repr, DecidableEq

/-- The simplevent.Message value handed to QueueRemoteEvent
(handlebsky.go lines 49-68), with the log-context strings flattened into
fields. -/
structure QueuedEvent where
  type : String
  chatId : String
  rev : String
  logMessageId : String
  senderId : String
  portalKey : String
  sender : EventSender
  createPortal : Bool
  timestamp : Time
  streamOrder : Int
  data : Payload
  id : String
  deriving Repr, DecidableEq

/-- HandleNewMessage (handlebsky.go lines 43-69). Result layering: outer
none = runtime panic (evt.Message is dereferenced without a nil check on
line 44); some none = parse error, logged and dropped with no enqueue;
some (some q) = exactly the event q enqueued. -/
def HandleNewMessage
    (makeEventSender : String → Except String EventSender)
    (parseDatetimeTime : String → Except String Time)
    (evt : LogCreateMessage) : Option (Option QueuedEvent) :=
  match evt.message with
  | none => none
  | some m =>
    match parseMessageDetails makeEventSender parseDatetimeTime
        m.convoDefs_MessageView m.convoDefs_DeletedMessageView with
    | .error _ => some none
    | .ok d =>
      some (some
        { type := remoteEventMessage
          chatId := evt.convoId
          rev := evt.rev
          logMessageId := d.msgID
          senderId := d.evtSender.sender
          portalKey := makePortalKey evt.convoId
          sender := d.evtSender
          createPortal := true
          timestamp := d.sentAt
          streamOrder := d.sentAt.unixMilli
          data := d.msgData
          id := makeMessageID (makePortalID evt.convoId) d.msgID })

/-- HandleEvent (handlebsky.go lines 34-41): dispatch on the log-entry
kind; only a populated ConvoDefs_LogCreateMessage is forwarded, every
other entry is a no-op (some none: no panic, no enqueue). -/
def HandleEvent
    (makeEventSender : String → Except String EventSender)
    (parseDatetimeTime : String → Except String Time)
    (evt : LogElem) : Option (Option QueuedEvent) :=
  match evt.convoDefs_LogCreateMessage with
  | some m => HandleNewMessage makeEventSender parseDatetimeTime m
  | none => some none

/-- C5: for every Deleted message view, regardless of its field values,
convertMessage returns exactly one content part with render kind notice
and body "Deleted message". -/
theorem convertMessage_deleted_notice (d : DeletedMessageView) :
    convertMessage (.deleted d) =
      some { parts := [{ type := eventMessage,
                         content := { msgType := msgNotice, body := "Deleted message" } }] } :=
  rfl

/-- C6: for every payload that is neither an Active nor a Deleted message
view, convertMessage returns exactly one content part with render kind
notice and fixed body "Unsupported message". -/
theorem convertMessage_unsupported_notice (typeName : String) :
    convertMessage (.other typeName) =
      some { parts := [{ type := eventMessage,
                         content := { msgType := msgNotice, body := "Unsupported message" } }] } :=
  rfl

/-- C5 witness: a concrete Deleted view. -/
theorem convertMessage_deleted_notice_witness :
    convertMessage (.deleted ⟨"r", "dm1", ⟨"did:plc:abc"⟩, "2024-01-01T00:00:00.000Z"⟩) =
      some { parts := [{ type := eventMessage,
                         content := { msgType := msgNotice, body := "Deleted message" } }] } :=
  convertMessage_deleted_notice ⟨"r", "dm1", ⟨"did:plc:abc"⟩, "2024-01-01T00:00:00.000Z"⟩

/-- C6 witness: a concrete payload of an unrecognized shape. -/
theorem convertMessage_unsupported_notice_witness :
    convertMessage (.other "chat.ConvoDefs_LogBeginConvo") =
      some { parts := [{ type := eventMessage,
                         content := { msgType := msgNotice, body := "Unsupported message" } }] } :=
  convertMessage_unsupported_notice "chat.ConvoDefs_LogBeginConvo"

/-- C2 (code bug): the claim says convertMessage never fails for any
payload, including an Active view whose embed has a nil inner view; but
line 115 reads typedData.Embed.EmbedRecord_View.Record without a nil
check, so an Active view with a populated Embed whose EmbedRecord_View is
nil makes the Go code panic — modelled here by the result none. -/
theorem convertMessage_crashes_on_nil_embed_view :
    convertMessage (.active
      { id := "m2", sender := ⟨"did:plc:xyz"⟩,
        sentAt := "2024-01-01T00:00:00.000Z", text := "",
        embed := some { embedRecord_View := none } }) = none :=
  rfl

/-- C3 (code bug): the claim says recordValueDecoder never fails and
returns the display text of every feed post; but the debug log on line
180 dereferences typedRecordValue.Embed.EmbedImages.Images[0].Image
unconditionally, so a feed post without an image embed (here: Embed nil)
makes the Go code panic instead of returning its text "hello". -/
theorem recordValueDecoder_crashes_on_embedless_feed_post :
    recordValueDecoder (.feedPost { text := "hello", embed := none }) = none :=
  rfl

/-- C1 counterexample: for an Active view with body "hi" and an embed
whose record is an unhandled kind (a quoted generator view), the claim
says the embed is omitted and the text part emitted with no error
surfaced; the code instead panics (none) dereferencing the nil
EmbedRecord_ViewRecord field on line 160, so convertMessage returns no
part list at all. -/
theorem convertMessage_panics_on_unhandled_record_kind :
    convertMessage (.active
      { id := "m3", sender := ⟨"did:plc:abc"⟩,
        sentAt := "2024-01-01T00:00:00.000Z", text := "hi",
        embed := some ({ embedRecord_View := some ({ record := some ({ feedDefs_GeneratorView := some () } : EmbedRecord_View_Record) } : EmbedRecord_View) } : MessageViewEmbed) }) = none :=
  rfl

/-- Helper: called on a typed *bsky.EmbedRecord_View_Record argument — the
only shape convertMessage ever passes — blueskyEmbedToMatrix never returns
an error: its nil check compares the interface (not the pointer) to nil
and its type switch always matches, so every failure on this shape is a
panic, never a returned error. -/
theorem blueskyEmbedToMatrix_viewRecordPtr_not_error
    (p : Option EmbedRecord_View_Record) (e : String) :
    blueskyEmbedToMatrix (.viewRecordPtr p) ≠ some (.error e) := by
  intro hc
  rcases p with _ | r
  · exact Option.noConfusion hc
  · rcases hvr : r.embedRecord_ViewRecord with _ | vr
    · simp [blueskyEmbedToMatrix, hvr] at hc
    · rcases hval : vr.value with _ | val
      · simp [blueskyEmbedToMatrix, hvr, hval] at hc
      · rcases hdec : recordValueDecoder val with _ | bodyText
        · simp [blueskyEmbedToMatrix, hvr, hval, hdec] at hc
        · simp [blueskyEmbedToMatrix, hvr, hval, hdec] at hc

/-- C1 (amended): for every Active message view on which convertMessage
returns a part list, the parts are: an embed part first when an
embedded-record reference is present (its resolution having succeeded),
followed by a text part carrying the message body exactly when the body
text is non-empty; with no embed and an empty body the result is the
empty part list. -/
theorem convertMessage_active_parts_order
    (v : MessageView) (cm : ConvertedMessage)
    (h : convertMessage (.active v) = some cm) :
    (v.embed = none →
      cm.parts =
        if 0 < v.text.length then
          [{ type := eventMessage, content := { msgType := msgText, body := v.text } }]
        else []) ∧
    (∀ e erv, v.embed = some e → e.embedRecord_View = some erv →
      ∃ ep, blueskyEmbedToMatrix (.viewRecordPtr erv.record) = some (.ok ep) ∧
        cm.parts =
          ep :: (if 0 < v.text.length then
            [{ type := eventMessage, content := { msgType := msgText, body := v.text } }]
          else [])) := by
  constructor
  · intro he
    simp only [convertMessage, he, Option.some.injEq] at h
    subst h
    by_cases hc : 0 < v.text.length <;> simp [hc]
  · intro e erv he herv
    rcases hb : blueskyEmbedToMatrix (.viewRecordPtr erv.record) with _ | r
    · simp [convertMessage, he, herv, hb] at h
    · rcases r with e' | ep
      · exact absurd hb (blueskyEmbedToMatrix_viewRecordPtr_not_error erv.record e')
      · simp only [convertMessage, he, herv, hb, Option.some.injEq] at h
        subst h
        refine ⟨ep, rfl, ?_⟩
        by_cases hc : 0 < v.text.length <;> simp [hc]

/-- C1 witness: a concrete Active view with body "hi" and no embed, on
which convertMessage returns exactly the text part. -/
theorem convertMessage_active_parts_order_witness :
    convertMessage (.active
      { id := "m1", sender := ⟨"did:plc:abc"⟩,
        sentAt := "2024-01-01T00:00:00.000Z", text := "hi" }) =
      some { parts := [{ type := eventMessage,
                         content := { msgType := msgText, body := "hi" } }] } ∧
    ({ parts := [{ type := eventMessage,
                   content := { msgType := msgText, body := "hi" } }] } : ConvertedMessage).parts =
      if 0 < ("hi" : String).length then
        [{ type := eventMessage, content := { msgType := msgText, body := "hi" } }]
      else [] := by
  have h := convertMessage_active_parts_order
    { id := "m1", sender := ⟨"did:plc:abc"⟩,
      sentAt := "2024-01-01T00:00:00.000Z", text := "hi" }
    { parts := [{ type := eventMessage,
                  content := { msgType := msgText, body := "hi" } }] }
    rfl
  exact ⟨rfl, h.1 rfl⟩

/-- C9: when both the Active and the Deleted message view are populated,
parseMessageDetails behaves exactly as if the Deleted view were absent,
and on success the sender resolution input, timestamp input, id and
payload are all taken from the Active view. -/
theorem parseMessageDetails_prefers_active_view
    (makeEventSender : String → Except String EventSender)
    (parseDatetimeTime : String → Except String Time)
    (mv : MessageView) (dmv : DeletedMessageView) :
    parseMessageDetails makeEventSender parseDatetimeTime (some mv) (some dmv) =
      parseMessageDetails makeEventSender parseDatetimeTime (some mv) none ∧
    ∀ d, parseMessageDetails makeEventSender parseDatetimeTime (some mv) (some dmv) = .ok d →
      d.msgID = mv.id ∧ d.msgData = .active mv ∧
      makeEventSender mv.sender.did = .ok d.evtSender ∧
      parseDatetimeTime mv.sentAt = .ok d.sentAt := by
  refine ⟨rfl, ?_⟩
  intro d hd
  rcases hs : makeEventSender mv.sender.did with es | s
  · simp [parseMessageDetails, hs] at hd
  · rcases ht : parseDatetimeTime mv.sentAt with et | t
    · simp [parseMessageDetails, hs, ht] at hd
    · simp only [parseMessageDetails, hs, ht, Except.ok.injEq] at hd
      subst hd
      exact ⟨rfl, rfl, rfl, rfl⟩

/-- C9 witness: a concrete pair of populated views; the Active view's id
and payload are what extraction returns. -/
theorem parseMessageDetails_prefers_active_view_witness :
    parseMessageDetails (fun s => Except.ok ⟨s⟩) (fun _ => Except.ok ⟨1704067200000⟩)
      (some { id := "m1", sender := ⟨"did:plc:abc"⟩, sentAt := "2024-01-01T00:00:00.000Z", text := "hello" })
      (some { id := "dm", sender := ⟨"did:plc:zzz"⟩, sentAt := "bogus" }) =
      .ok ⟨⟨"did:plc:abc"⟩, ⟨1704067200000⟩, "m1", .active { id := "m1", sender := ⟨"did:plc:abc"⟩, sentAt := "2024-01-01T00:00:00.000Z", text := "hello" }⟩ ∧
    (⟨⟨"did:plc:abc"⟩, ⟨1704067200000⟩, "m1", .active { id := "m1", sender := ⟨"did:plc:abc"⟩, sentAt := "2024-01-01T00:00:00.000Z", text := "hello" }⟩ : ParsedDetails).msgID =
      ({ id := "m1", sender := ⟨"did:plc:abc"⟩, sentAt := "2024-01-01T00:00:00.000Z", text := "hello" } : MessageView).id := by
  have h := (parseMessageDetails_prefers_active_view
    (fun s => Except.ok ⟨s⟩) (fun _ => Except.ok ⟨1704067200000⟩)
    { id := "m1", sender := ⟨"did:plc:abc"⟩, sentAt := "2024-01-01T00:00:00.000Z", text := "hello" }
    { id := "dm", sender := ⟨"did:plc:zzz"⟩, sentAt := "bogus" }).2
    ⟨⟨"did:plc:abc"⟩, ⟨1704067200000⟩, "m1", .active { id := "m1", sender := ⟨"did:plc:abc"⟩, sentAt := "2024-01-01T00:00:00.000Z", text := "hello" }⟩
    rfl
  exact ⟨rfl, h.1⟩

/-- C10: every part that blueskyEmbedToMatrix successfully returns
carries the one fixed hard-coded HTML formatted body, HTML format, text
message type and message event type; only the plain body varies with the
input. -/
theorem blueskyEmbedToMatrix_fixed_formatted_body
    (arg : RecordArg) (p : ConvertedMessagePart)
    (h : blueskyEmbedToMatrix arg = some (.ok p)) :
    p.content.formattedBody = some embedFormattedBody ∧
    p.content.format = some formatHTML ∧
    p.content.msgType = msgText ∧
    p.type = eventMessage := by
  rcases arg with _ | q | t
  · simp [blueskyEmbedToMatrix] at h
  · rcases q with _ | r
    · exact Option.noConfusion h
    · rcases hvr : r.embedRecord_ViewRecord with _ | vr
      · simp [blueskyEmbedToMatrix, hvr] at h
      · rcases hval : vr.value with _ | val
        · simp [blueskyEmbedToMatrix, hvr, hval] at h
        · rcases hdec : recordValueDecoder val with _ | bodyText
          · simp [blueskyEmbedToMatrix, hvr, hval, hdec] at h
          · simp only [blueskyEmbedToMatrix, hvr, hval, hdec, Option.some.injEq,
              Except.ok.injEq] at h
            subst h
            exact ⟨rfl, rfl, rfl, rfl⟩
  · simp [blueskyEmbedToMatrix] at h

/-- C10 witness: a concrete embedded record whose inner value is of an
unrecognized concrete kind; resolution succeeds with body "not parsed"
and the fixed formatted body. -/
theorem blueskyEmbedToMatrix_fixed_formatted_body_witness :
    blueskyEmbedToMatrix (.viewRecordPtr (some ({ embedRecord_ViewRecord := some ({ value := some (.otherVal "bsky.GraphDefs_ListView") } : EmbedRecord_ViewRecord) } : EmbedRecord_View_Record))) =
      some (.ok { type := eventMessage, content := { msgType := msgText, body := "not parsed", formattedBody := some embedFormattedBody, format := some formatHTML } }) ∧
    ({ type := eventMessage, content := { msgType := msgText, body := "not parsed", formattedBody := some embedFormattedBody, format := some formatHTML } } : ConvertedMessagePart).content.formattedBody =
      some embedFormattedBody := by
  have h := blueskyEmbedToMatrix_fixed_formatted_body
    (.viewRecordPtr (some ({ embedRecord_ViewRecord := some ({ value := some (.otherVal "bsky.GraphDefs_ListView") } : EmbedRecord_ViewRecord) } : EmbedRecord_View_Record)))
    { type := eventMessage, content := { msgType := msgText, body := "not parsed", formattedBody := some embedFormattedBody, format := some formatHTML } }
    rfl
  exact ⟨rfl, h.1⟩

/-- C7: a log entry whose inner kind is not "message created" causes no
enqueue: HandleEvent is a no-op on it, with no panic and no error
surfaced. -/
theorem handleEvent_non_create_no_enqueue
    (makeEventSender : String → Except String EventSender)
    (parseDatetimeTime : String → Except String Time)
    (evt : LogElem)
    (h : evt.convoDefs_LogCreateMessage = none) :
    HandleEvent makeEventSender parseDatetimeTime evt = some none := by
  simp [HandleEvent, h]

/-- C7 witness: a concrete "begin conversation" log entry is ignored. -/
theorem handleEvent_non_create_no_enqueue_witness :
    ({ convoDefs_LogBeginConvo := some () } : LogElem).convoDefs_LogCreateMessage = none ∧
    HandleEvent (fun s => Except.ok ⟨s⟩) (fun _ => Except.ok ⟨0⟩)
      { convoDefs_LogBeginConvo := some () } = some none :=
  ⟨rfl, handleEvent_non_create_no_enqueue _ _ _ rfl⟩

/-- Helper: whenever HandleNewMessage enqueues an event, its id is the
composite of the portal id of its conversation key and its remote message
id. -/
theorem handleNewMessage_queued_id
    (makeEventSender : String → Except String EventSender)
    (parseDatetimeTime : String → Except String Time)
    (evt : LogCreateMessage) (q : QueuedEvent)
    (h : HandleNewMessage makeEventSender parseDatetimeTime evt = some (some q)) :
    q.id = makeMessageID (makePortalID q.chatId) q.logMessageId := by
  rcases hm : evt.message with _ | m
  · simp [HandleNewMessage, hm] at h
  · rcases hp : parseMessageDetails makeEventSender parseDatetimeTime
        m.convoDefs_MessageView m.convoDefs_DeletedMessageView with e | d
    · simp [HandleNewMessage, hm, hp] at h
    · simp only [HandleNewMessage, hm, hp, Option.some.injEq] at h
      subst h
      rfl

/-- C8: the enqueued message id is a deterministic function of the
(conversation key, remote message id) pair: any two enqueued events
agreeing on that pair — whatever their other fields, inputs or
collaborator behaviour — carry the identical id string. -/
theorem queued_message_id_deterministic
    (mes1 pdt1 mes2 pdt2 : _) (e1 e2 : LogCreateMessage) (q1 q2 : QueuedEvent)
    (h1 : HandleNewMessage mes1 pdt1 e1 = some (some q1))
    (h2 : HandleNewMessage mes2 pdt2 e2 = some (some q2))
    (hchat : q1.chatId = q2.chatId)
    (hmsg : q1.logMessageId = q2.logMessageId) :
    q1.id = q2.id := by
  rw [handleNewMessage_queued_id mes1 pdt1 e1 q1 h1,
    handleNewMessage_queued_id mes2 pdt2 e2 q2 h2, hchat, hmsg]

/-- C8 witness: two concrete events with the same conversation and remote
message id but different revisions, senders and bodies get the same
enqueued id. -/
theorem queued_message_id_deterministic_witness :
    HandleNewMessage (fun s => Except.ok ⟨s⟩) (fun _ => Except.ok ⟨5⟩)
      ⟨"c1", "rA", some ⟨some ⟨"rA", "m9", ⟨"did:plc:aaa"⟩, "sA", "x", none⟩, none⟩⟩ =
      some (some ⟨"message", "c1", "rA", "m9", "did:plc:aaa", "c1", ⟨"did:plc:aaa"⟩, true, ⟨5⟩, 5, .active ⟨"rA", "m9", ⟨"did:plc:aaa"⟩, "sA", "x", none⟩, "c1:m9"⟩) ∧
    HandleNewMessage (fun s => Except.ok ⟨s⟩) (fun _ => Except.ok ⟨5⟩)
      ⟨"c1", "rB", some ⟨some ⟨"rB", "m9", ⟨"did:plc:bbb"⟩, "sB", "y", none⟩, none⟩⟩ =
      some (some ⟨"message", "c1", "rB", "m9", "did:plc:bbb", "c1", ⟨"did:plc:bbb"⟩, true, ⟨5⟩, 5, .active ⟨"rB", "m9", ⟨"did:plc:bbb"⟩, "sB", "y", none⟩, "c1:m9"⟩) ∧
    (⟨"message", "c1", "rA", "m9", "did:plc:aaa", "c1", ⟨"did:plc:aaa"⟩, true, ⟨5⟩, 5, .active ⟨"rA", "m9", ⟨"did:plc:aaa"⟩, "sA", "x", none⟩, "c1:m9"⟩ : QueuedEvent).id =
    (⟨"message", "c1", "rB", "m9", "did:plc:bbb", "c1", ⟨"did:plc:bbb"⟩, true, ⟨5⟩, 5, .active ⟨"rB", "m9", ⟨"did:plc:bbb"⟩, "sB", "y", none⟩, "c1:m9"⟩ : QueuedEvent).id := by
  refine ⟨rfl, rfl, ?_⟩
  exact queued_message_id_deterministic
    (fun s => Except.ok ⟨s⟩) (fun _ => Except.ok ⟨5⟩)
    (fun s => Except.ok ⟨s⟩) (fun _ => Except.ok ⟨5⟩)
    ⟨"c1", "rA", some ⟨some ⟨"rA", "m9", ⟨"did:plc:aaa"⟩, "sA", "x", none⟩, none⟩⟩
    ⟨"c1", "rB", some ⟨some ⟨"rB", "m9", ⟨"did:plc:bbb"⟩, "sB", "y", none⟩, none⟩⟩
    ⟨"message", "c1", "rA", "m9", "did:plc:aaa", "c1", ⟨"did:plc:aaa"⟩, true, ⟨5⟩, 5, .active ⟨"rA", "m9", ⟨"did:plc:aaa"⟩, "sA", "x", none⟩, "c1:m9"⟩
    ⟨"message", "c1", "rB", "m9", "did:plc:bbb", "c1", ⟨"did:plc:bbb"⟩, true, ⟨5⟩, 5, .active ⟨"rB", "m9", ⟨"did:plc:bbb"⟩, "sB", "y", none⟩, "c1:m9"⟩
    rfl rfl rfl rfl

/-- C4: parseMessageDetails returns an error exactly when no view is
populated, the sender-resolution collaborator fails on the selected
view's sender DID, or the strict datetime parse fails on the selected
view's timestamp string; and whenever it errs, HandleNewMessage enqueues
nothing (and hence substitutes no fallback timestamp). -/
theorem parseMessageDetails_error_iff_drop
    (makeEventSender : String → Except String EventSender)
    (parseDatetimeTime : String → Except String Time)
    (mv : Option MessageView) (dmv : Option DeletedMessageView) :
    ((∃ e, parseMessageDetails makeEventSender parseDatetimeTime mv dmv = .error e) ↔
      (mv = none ∧ dmv = none) ∨
      (∃ v, mv = some v ∧
        ((∃ e, makeEventSender v.sender.did = .error e) ∨
         (∃ e, parseDatetimeTime v.sentAt = .error e))) ∨
      (mv = none ∧ ∃ dv, dmv = some dv ∧
        ((∃ e, makeEventSender dv.sender.did = .error e) ∨
         (∃ e, parseDatetimeTime dv.sentAt = .error e)))) ∧
    (∀ (evt : LogCreateMessage) (m : LogCreateMessageMessage),
      evt.message = some m →
      m.convoDefs_MessageView = mv → m.convoDefs_DeletedMessageView = dmv →
      (∃ e, parseMessageDetails makeEventSender parseDatetimeTime mv dmv = .error e) →
      HandleNewMessage makeEventSender parseDatetimeTime evt = some none) := by
  constructor
  · rcases mv with _ | v
    · rcases dmv with _ | dv
      · simp [parseMessageDetails]
      · rcases hs : makeEventSender dv.sender.did with es | s
        · simp [parseMessageDetails, hs]
        · rcases ht : parseDatetimeTime dv.sentAt with et | t
          · simp [parseMessageDetails, hs, ht]
          · simp [parseMessageDetails, hs, ht]
    · rcases hs : makeEventSender v.sender.did with es | s
      · simp [parseMessageDetails, hs]
      · rcases ht : parseDatetimeTime v.sentAt with et | t
        · simp [parseMessageDetails, hs, ht]
        · simp [parseMessageDetails, hs, ht]
  · rintro evt m hm hmv hdmv ⟨e, he⟩
    simp [HandleNewMessage, hm, hmv, hdmv, he]

/-- C4 witness: with neither view populated, extraction errs and a
concrete event carrying such a message produces no enqueue. -/
theorem parseMessageDetails_error_iff_drop_witness :
    (∃ e, parseMessageDetails (fun s => Except.ok ⟨s⟩) (fun _ => Except.ok ⟨0⟩)
      (none : Option MessageView) (none : Option DeletedMessageView) = .error e) ∧
    HandleNewMessage (fun s => Except.ok ⟨s⟩) (fun _ => Except.ok ⟨0⟩)
      { convoId := "c", rev := "r", message := some ({} : LogCreateMessageMessage) } = some none := by
  have h := parseMessageDetails_error_iff_drop
    (fun s => Except.ok ⟨s⟩) (fun _ => Except.ok (⟨0⟩ : Time)) none none
  have herr := h.1.mpr (Or.inl ⟨rfl, rfl⟩)
  exact ⟨herr, h.2 _ ({} : LogCreateMessageMessage) rfl rfl rfl herr⟩

end Bluesky
